import Mathlib

/-!
Shallow embedding of `src/main.py` (BookScraper-OOP): the Playwright-based
extractor `BookScraper.fetch_data` and the SQLAlchemy-based store
`DatabaseManager` (`__init__` / `save_books`), together with proofs of the
specification's testable properties.

Python string primitives used by the source (`str.replace`, `str.strip`,
`float(...)`) are embedded as executable Lean functions on `List Char` /
`String`; floating-point amounts are idealised as rationals `ℚ`.
-/

namespace BookScraperOOP

/-! ## Python string primitives -/

/-- Boolean test that `pat` is a leading segment of `s` (character lists). -/
def isPrefixL : List Char → List Char → Bool
| [], _ => true
| _ :: _, [] => false
| a :: as, b :: bs => a == b && isPrefixL as bs

/-- Boolean test that `pat` occurs as a contiguous segment somewhere in `s`. -/
def occursIn (pat : List Char) : List Char → Bool
| [] => isPrefixL pat []
| c :: cs => isPrefixL pat (c :: cs) || occursIn pat cs

/-- Fuel-driven core of Python `str.replace(old, new)`: replaces every
non-overlapping occurrence of `old`, scanning left to right.  The fuel is
always instantiated to more than the length of the scanned list, so it never
runs out for a non-empty `old`. -/
def listReplace : Nat → List Char → List Char → List Char → List Char
| 0, _, _, s => s
| _ + 1, _, _, [] => []
| f + 1, old, new, c :: cs =>
    if isPrefixL old (c :: cs) then
      new ++ listReplace f old new (List.drop old.length (c :: cs))
    else
      c :: listReplace f old new cs

/-- Python `s.replace(old, new)` for a non-empty `old` (the only way the
source calls it). -/
def pyReplace (s old new : String) : String :=
  ⟨listReplace (s.data.length + 1) old.data new.data s.data⟩

/-- The characters Python `str.strip()` removes (ASCII whitespace; the exotic
Unicode spaces never occur in the scraped text). -/
def isPySpace (c : Char) : Bool :=
  c == ' ' || c == '\t' || c == '\n' || c == '\r' || c == '\x0b' || c == '\x0c'

/-- Python `s.strip()`. -/
def pyStrip (s : String) : String :=
  ⟨((s.data.dropWhile isPySpace).reverse.dropWhile isPySpace).reverse⟩

/-- Numeric value of a list of decimal digits (most significant first). -/
def digitsVal (l : List Char) : Nat :=
  l.foldl (fun a c => 10 * a + (c.toNat - 48)) 0

/-- Python `float(s)` on the decimal-numeral strings this program can meet:
an optional single dot between two digit groups, at least one of which is
non-empty.  Signs, exponents, `inf`/`nan` and surrounding whitespace never
occur at the call site and are not modelled; any other character makes the
parse fail (Python raises `ValueError`), which is the case that matters. -/
def parseFloatL (l : List Char) : Option ℚ :=
  let intPart := l.takeWhile (fun c => c != '.')
  match l.dropWhile (fun c => c != '.') with
  | [] =>
      if intPart ≠ [] ∧ intPart.all Char.isDigit then
        some (mkRat (digitsVal intPart) 1)
      else none
  | _ :: frac =>
      if (intPart ≠ [] ∨ frac ≠ []) ∧ intPart.all Char.isDigit ∧ frac.all Char.isDigit then
        some (mkRat (digitsVal intPart * 10 ^ frac.length + digitsVal frac) (10 ^ frac.length))
      else none

/-- Python `float(s)`. -/
def parseFloat (s : String) : Option ℚ := parseFloatL s.data

/-! ## Data model (`BookData`, main.py lines 22-28)

`title` is typed `str` in the dataclass, but Python does not enforce the
annotation: `get_attribute("title")` returns `None` when the anchor lacks the
attribute and the record is built with that `None`, so the field is embedded
as `Option String`. -/

/-- Data Transfer Object for Book information (`BookData`). -/
structure BookData where
  title : Option String
  price : ℚ
  availability : String
  rating : String
deriving Repr, DecidableEq

/-! ## Extractor (`BookScraper.fetch_data`, main.py lines 60-97)

One `.product_pod` entry is embedded by what the four `query_selector` /
attribute reads can observe of it: each element is `none` when the selector
matches nothing, and the two attribute reads are `none` when the attribute is
absent on a present element. -/

/-- One `.product_pod` DOM entry, as observed by `fetch_data`. -/
structure Entry where
  /-- `query_selector("h3 a")`, and on it `get_attribute("title")`. -/
  titleAnchor : Option (Option String)
  /-- `query_selector(".price_color")`, and its `inner_text()`. -/
  priceEl : Option String
  /-- `query_selector(".instock.availability")`, and its `inner_text()`. -/
  availEl : Option String
  /-- `query_selector(".star-rating")`, and on it `get_attribute("class")`. -/
  ratingEl : Option (Option String)
deriving Repr, DecidableEq

/-- The Python exceptions the per-entry extraction code can raise:
`AttributeError` from calling a method on `None`, `ValueError` from
`float(...)` on a non-numeric string (carried verbatim). -/
inductive ExtractionError where
| attributeError
| valueError (text : String)
deriving Repr, DecidableEq

/-- Line 81: `price = float(price_text.replace("Â£", ""))` — note the source
strips only the two-character mis-decoded sequence `"Â£"`, not the bare
pound sign. -/
def extractPrice (priceText : String) : Option ℚ :=
  parseFloat (pyReplace priceText "Â£" "")

/-- Line 90: `rating = rating_class.replace("star-rating ", "")`. -/
def extractRating (ratingClass : String) : String :=
  pyReplace ratingClass "star-rating " ""

/-- The body of the `for book in books` loop (lines 74-93) for one entry:
each selector / attribute / parse failure raises at the point the source
reaches it, in source order (title, price, availability, rating). -/
def extractEntry (e : Entry) : Except ExtractionError BookData :=
  match e.titleAnchor with
  | none => Except.error ExtractionError.attributeError
  | some title =>
    match e.priceEl with
    | none => Except.error ExtractionError.attributeError
    | some priceText =>
      match extractPrice priceText with
      | none => Except.error (ExtractionError.valueError (pyReplace priceText "Â£" ""))
      | some price =>
        match e.availEl with
        | none => Except.error ExtractionError.attributeError
        | some availText =>
          match e.ratingEl with
          | none => Except.error ExtractionError.attributeError
          | some none => Except.error ExtractionError.attributeError
          | some (some ratingClass) =>
              Except.ok ⟨title, price, pyStrip availText, extractRating ratingClass⟩

/-- `fetch_data` from the point the entries are in hand (lines 73-97): the
loop appends one record per entry in document order and any raised exception
aborts the whole page. -/
def fetch_data : List Entry → Except ExtractionError (List BookData)
| [] => Except.ok []
| e :: es =>
    match extractEntry e with
    | Except.error err => Except.error err
    | Except.ok b =>
        match fetch_data es with
        | Except.error err => Except.error err
        | Except.ok bs => Except.ok (b :: bs)

/-- An entry on which every read in the loop body succeeds. -/
def entryOk (e : Entry) : Bool :=
  e.titleAnchor.isSome &&
  (match e.priceEl with
   | some p => (extractPrice p).isSome
   | none => false) &&
  e.availEl.isSome &&
  (match e.ratingEl with
   | some (some _) => true
   | _ => false)

/-! ## Store (`BookModel` and `DatabaseManager`, main.py lines 30-38 and 101-127)

The SQLite database behind the SQLAlchemy engine is embedded as the state of
the one table the program declares.  A transaction is the only mutator of the
visible rows: `session.add` merely stages a record, and the staged inserts
become visible rows exactly when `session.commit()` succeeds. -/

/-- One durable row of the `books` table (`BookModel`, lines 30-38). -/
structure BookRow where
  id : Nat
  title : Option String
  price : ℚ
  availability : String
  rating : String
deriving Repr, DecidableEq

/-- The column layout `BookModel` declares (column name, SQLAlchemy type). -/
def booksSchema : List (String × String) :=
  [("id", "Integer"), ("title", "String"), ("price", "Float"),
   ("availability", "String"), ("rating", "String")]

/-- The `books` table: its declared schema, its visible rows, and the next
auto-increment primary key the store will assign. -/
structure BooksTable where
  schema : List (String × String)
  rows : List BookRow
  nextId : Nat
deriving Repr, DecidableEq

/-- `Base.metadata.create_all(engine)` (line 106): issues `CREATE TABLE` only
for tables that do not already exist (SQLAlchemy's `checkfirst` behaviour),
so an existing table keeps its schema and rows. -/
def create_all : Option BooksTable → Option BooksTable
| none => some ⟨booksSchema, [], 1⟩
| some t => some t

/-- The effect of `DatabaseManager.__init__` (lines 104-107) on the
connection target's database: `create_engine` opens it,
`Base.metadata.create_all` ensures the table, and `sessionmaker` touches no
database state. -/
def DatabaseManager.init (db : Option BooksTable) : Option BooksTable :=
  create_all db

/-- The row `save_books` builds from one record (lines 114-119) once the
store assigns it the identifier `id`. -/
def toRow (id : Nat) (b : BookData) : BookRow :=
  ⟨id, b.title, b.price, b.availability, b.rating⟩

/-- The rows a flushed batch becomes, with consecutive identifiers from `n`. -/
def rowsFrom (n : Nat) : List BookData → List BookRow
| [] => []
| b :: bs => toRow n b :: rowsFrom (n + 1) bs

/-- The table after a successful commit of a staged batch. -/
def insertAll (t : BooksTable) (books : List BookData) : BooksTable :=
  ⟨t.schema, t.rows ++ rowsFrom t.nextId books, t.nextId + books.length⟩

/-- Recover the record a row was built from (the read-back direction of the
round-trip property). -/
def rowData (r : BookRow) : BookData :=
  ⟨r.title, r.price, r.availability, r.rating⟩

/-- A SQLAlchemy session: the records staged by `session.add` but not yet
committed, and whether `session.close()` has run. -/
structure Session where
  pending : List BookData
  closed : Bool
deriving Repr, DecidableEq

/-- `session.add(record)` (line 120): stages the record; no visible rows
change. -/
def Session.add (s : Session) (b : BookData) : Session :=
  ⟨s.pending ++ [b], s.closed⟩

/-- `session.rollback()` (line 125): discards the staged, uncommitted
inserts. -/
def Session.rollback (s : Session) : Session :=
  ⟨[], s.closed⟩

/-- `session.close()` (line 127): releases the session's resources. -/
def Session.close (_s : Session) : Session :=
  ⟨[], true⟩

/-- A storage-layer exception (a SQLAlchemy error), carrying its text. -/
structure DBError where
  msg : String
deriving Repr, DecidableEq

/-- Fault oracle for one `save_books` call: whether the storage layer raises
while flushing the k-th staged insert, raises at the final commit, or does
not fault.  The carried string is the raised exception's text. -/
inductive FaultSpec where
| noFault
| insertFault (k : Nat) (msg : String)
| commitFault (msg : String)
deriving Repr, DecidableEq

/-- Whether the oracle makes `session.commit()` raise for this staged batch:
an insert fault needs a k-th staged record to exist. -/
def FaultSpec.triggers : FaultSpec → List BookData → Bool
| FaultSpec.noFault, _ => false
| FaultSpec.insertFault k _, pending => decide (k < pending.length)
| FaultSpec.commitFault _, _ => true

/-- The text of the exception the oracle raises. -/
def FaultSpec.message : FaultSpec → String
| FaultSpec.noFault => ""
| FaultSpec.insertFault _ m => m
| FaultSpec.commitFault m => m

/-- `session.commit()` (line 121): flushes the staged inserts and commits
them as one transaction.  On success every staged record becomes a visible
row; on a fault the transaction commits nothing and the exception
propagates. -/
def Session.commit (f : FaultSpec) (t : BooksTable) (s : Session) :
    Except DBError (BooksTable × Session) :=
  if f.triggers s.pending then Except.error ⟨f.message⟩
  else Except.ok (insertAll t s.pending, ⟨[], s.closed⟩)

/-- What one `save_books` call returns to its caller: the visible table
afterwards, the final session state, what it printed, and the exception it
propagates (`none` when it returns normally). -/
structure SaveReturn where
  table : BooksTable
  session : Session
  printed : List String
  raised : Option DBError
deriving Repr, DecidableEq

/-- Line 122: the success message. -/
def successMessage (n : Nat) : String :=
  "Successfully saved " ++ toString n ++ " books."

/-- Line 124: the message printed in the `except` arm. -/
def errorMessage (e : DBError) : String :=
  "Error saving to DB: " ++ e.msg

/-- `save_books` (lines 109-127).  `session = self.Session()` opens a fresh
session; the `for` loop stages one `BookModel` per record; the `try` arm
commits and prints the success message; `except Exception` catches any fault
from the commit, prints it and rolls back without re-raising; `finally`
closes the session on both paths. -/
def save_books (t : BooksTable) (books : List BookData) (f : FaultSpec) : SaveReturn :=
  let session : Session := ⟨[], false⟩
  let session := books.foldl Session.add session
  match session.commit f t with
  | Except.ok (t', session') =>
      ⟨t', session'.close, [successMessage books.length], none⟩
  | Except.error e =>
      ⟨t, session.rollback.close, [errorMessage e], none⟩

/-! ## Vocabulary for the claims

The spec states the rating property as "the second space-separated token of
the class attribute"; the next three definitions give that phrase a meaning
independent of the extraction code it is compared against. -/

/-- Split a character list at spaces, left to right; `acc` holds the current
token reversed. -/
def splitSpAux (acc : List Char) : List Char → List (List Char)
| [] => [acc.reverse]
| c :: cs => if c == ' ' then acc.reverse :: splitSpAux [] cs else splitSpAux (c :: acc) cs

/-- The space-separated tokens of a string. -/
def spaceTokens (s : String) : List String :=
  (splitSpAux [] s.data).map (fun l => ⟨l⟩)

/-- The second space-separated token, when there is one. -/
def secondToken (s : String) : Option String :=
  (spaceTokens s)[1]?

/-- The record an entry extracts to when extraction succeeds (the error arm
is never reached on entries with `entryOk`). -/
def extractOk (e : Entry) : BookData :=
  match extractEntry e with
  | Except.ok b => b
  | Except.error _ => ⟨none, 0, "", ""⟩

/-! ## Concrete sample data for witnesses and counterexamples -/

/-- The spec's end-to-end example entry, as the rendered page delivers it
(the price text carries the mis-decoded currency sequence). -/
def sampleEntry : Entry :=
  ⟨some (some "A Light in the Attic"), some "Â£51.77", some "In stock",
   some (some "star-rating Three")⟩

/-- The record `sampleEntry` extracts to. -/
def sampleBook : BookData :=
  ⟨some "A Light in the Attic", mkRat 5177 100, "In stock", "Three"⟩

/-- An entry whose title anchor is present but carries no `title`
attribute. -/
def titlelessEntry : Entry :=
  ⟨some none, some "Â£51.77", some "In stock", some (some "star-rating Three")⟩

/-- An entry whose price text starts with the correctly decoded bare pound
sign. -/
def poundEntry : Entry :=
  ⟨some (some "A Light in the Attic"), some "£51.77", some "In stock",
   some (some "star-rating Three")⟩

/-- A freshly created `books` table. -/
def emptyTable : BooksTable := ⟨booksSchema, [], 1⟩

/-! ## Lemmas about the string primitives -/

theorem isPrefixL_self_append (l t : List Char) : isPrefixL l (l ++ t) = true := by
  induction l with
  | nil => rfl
  | cons a as ih => simp [isPrefixL, ih]

theorem listReplace_head (f : Nat) (a : Char) (as new rest : List Char) :
    listReplace (f + 1) (a :: as) new ((a :: as) ++ rest) =
      new ++ listReplace f (a :: as) new rest := by
  have h := isPrefixL_self_append (a :: as) rest
  simp only [List.cons_append] at h ⊢
  simp [listReplace, h, List.drop_succ_cons, List.drop_left]

theorem listReplace_no_occ (pat new : List Char) :
    ∀ (s : List Char) (f : Nat), occursIn pat s = false → listReplace f pat new s = s := by
  intro s
  induction s with
  | nil => intro f _; cases f <;> rfl
  | cons c cs ih =>
      intro f h
      simp only [occursIn, Bool.or_eq_false_iff] at h
      cases f with
      | zero => rfl
      | succ f =>
          simp only [listReplace, h.1, Bool.false_eq_true, if_false]
          rw [ih f h.2]

theorem mem_of_isPrefixL : ∀ (pat t : List Char), isPrefixL pat t = true → ∀ c ∈ pat, c ∈ t := by
  intro pat
  induction pat with
  | nil => intro t _ c hc; cases hc
  | cons a as ih =>
      intro t h c hc
      cases t with
      | nil => simp [isPrefixL] at h
      | cons b bs =>
          simp only [isPrefixL, Bool.and_eq_true, beq_iff_eq] at h
          rcases List.mem_cons.mp hc with h1 | h1
          · rw [h1, h.1]; exact List.mem_cons_self b bs
          · exact List.mem_cons_of_mem b (ih bs h.2 c h1)

theorem mem_of_occursIn : ∀ (s pat : List Char), occursIn pat s = true → ∀ c ∈ pat, c ∈ s := by
  intro s
  induction s with
  | nil =>
      intro pat h c hc
      cases pat with
      | nil => cases hc
      | cons a as => simp [occursIn, isPrefixL] at h
  | cons b bs ih =>
      intro pat h c hc
      simp only [occursIn, Bool.or_eq_true] at h
      rcases h with h | h
      · exact mem_of_isPrefixL pat (b :: bs) h c hc
      · exact List.mem_cons_of_mem b (ih pat h c hc)

theorem occursIn_eq_false (pat s : List Char) (c : Char) (hc : c ∈ pat) (hs : c ∉ s) :
    occursIn pat s = false := by
  cases h : occursIn pat s with
  | false => rfl
  | true => exact absurd (mem_of_occursIn s pat h c hc) hs

theorem splitSpAux_no_space :
    ∀ (l acc : List Char), (∀ c ∈ l, (c == ' ') = false) → splitSpAux acc l = [acc.reverse ++ l] := by
  intro l
  induction l with
  | nil => intro acc _; simp [splitSpAux]
  | cons c cs ih =>
      intro acc h
      have hc := h c (List.mem_cons_self c cs)
      simp only [splitSpAux, hc, Bool.false_eq_true, if_false]
      rw [ih (c :: acc) (fun d hd => h d (List.mem_cons_of_mem c hd))]
      simp

/-! ## The two `replace` calls of the source -/

theorem pyReplace_misdecoded (w : String) (hw : 'Â' ∉ w.data) :
    pyReplace ("Â£" ++ w) "Â£" "" = w := by
  have hocc : occursIn ['Â', '£'] w.data = false :=
    occursIn_eq_false _ _ 'Â' (by simp) hw
  have h1 : listReplace (w.data.length + 2 + 1) ['Â', '£'] [] ('Â' :: '£' :: w.data)
      = [] ++ listReplace (w.data.length + 2) ['Â', '£'] [] w.data :=
    listReplace_head (w.data.length + 2) 'Â' ['£'] [] w.data
  calc pyReplace ("Â£" ++ w) "Â£" ""
      = ⟨listReplace (w.data.length + 2 + 1) ['Â', '£'] [] ('Â' :: '£' :: w.data)⟩ := rfl
    _ = ⟨w.data⟩ := by rw [h1, listReplace_no_occ _ _ _ _ hocc]; rfl
    _ = w := rfl

theorem pyReplace_star_rating (w : String) (hw : ' ' ∉ w.data) :
    pyReplace ("star-rating " ++ w) "star-rating " "" = w := by
  have hocc : occursIn "star-rating ".data w.data = false :=
    occursIn_eq_false _ _ ' ' (by decide) hw
  have h1 : listReplace (w.data.length + 12 + 1) "star-rating ".data [] ("star-rating ".data ++ w.data)
      = [] ++ listReplace (w.data.length + 12) "star-rating ".data [] w.data :=
    listReplace_head (w.data.length + 12) 's' "tar-rating ".data [] w.data
  calc pyReplace ("star-rating " ++ w) "star-rating " ""
      = ⟨listReplace (w.data.length + 12 + 1) "star-rating ".data [] ("star-rating ".data ++ w.data)⟩ := rfl
    _ = ⟨w.data⟩ := by rw [h1, listReplace_no_occ _ _ _ _ hocc]; rfl
    _ = w := rfl

/-! ## Lemmas about per-entry extraction -/

theorem extractEntry_ok_of_entryOk (e : Entry) (h : entryOk e = true) :
    extractEntry e = Except.ok (extractOk e) := by
  obtain ⟨ta, pe, ae, re⟩ := e
  cases ta with
  | none => simp [entryOk] at h
  | some t =>
    cases pe with
    | none => simp [entryOk] at h
    | some p =>
      cases hp : extractPrice p with
      | none => simp [entryOk, hp] at h
      | some q =>
        cases ae with
        | none => simp [entryOk] at h
        | some a =>
          cases re with
          | none => simp [entryOk] at h
          | some rc =>
            cases rc with
            | none => simp [entryOk] at h
            | some c =>
              have heq : extractEntry ⟨some t, some p, some a, some (some c)⟩
                  = Except.ok ⟨t, q, pyStrip a, extractRating c⟩ := by
                simp [extractEntry, hp]
              simp [heq, extractOk]

theorem extractEntry_error_of_not_entryOk (e : Entry) (h : entryOk e = false) :
    ∃ err, extractEntry e = Except.error err := by
  obtain ⟨ta, pe, ae, re⟩ := e
  cases ta with
  | none => exact ⟨ExtractionError.attributeError, rfl⟩
  | some t =>
    cases pe with
    | none => exact ⟨ExtractionError.attributeError, rfl⟩
    | some p =>
      cases hp : extractPrice p with
      | none =>
          exact ⟨ExtractionError.valueError (pyReplace p "Â£" ""), by simp [extractEntry, hp]⟩
      | some q =>
        cases ae with
        | none => exact ⟨ExtractionError.attributeError, by simp [extractEntry, hp]⟩
        | some a =>
          cases re with
          | none => exact ⟨ExtractionError.attributeError, by simp [extractEntry, hp]⟩
          | some rc =>
            cases rc with
            | none => exact ⟨ExtractionError.attributeError, by simp [extractEntry, hp]⟩
            | some c => simp [entryOk, hp] at h

/-! ## Lemmas about the page loop -/

theorem fetch_data_all_ok :
    ∀ (entries : List Entry), (∀ e ∈ entries, entryOk e = true) →
      fetch_data entries = Except.ok (entries.map extractOk) := by
  intro entries
  induction entries with
  | nil => intro _; rfl
  | cons e es ih =>
      intro h
      have heq : extractEntry e = Except.ok (extractOk e) :=
        extractEntry_ok_of_entryOk e (h e (List.mem_cons_self e es))
      have hrest := ih (fun x hx => h x (List.mem_cons_of_mem e hx))
      simp [fetch_data, heq, hrest]

theorem fetch_data_error_head (e : Entry) (post : List Entry) (err : ExtractionError)
    (h : extractEntry e = Except.error err) :
    fetch_data (e :: post) = Except.error err := by
  simp [fetch_data, h]

theorem fetch_data_error_append :
    ∀ (pre : List Entry), (∀ e ∈ pre, entryOk e = true) →
      ∀ (rest : List Entry) (err : ExtractionError), fetch_data rest = Except.error err →
        fetch_data (pre ++ rest) = Except.error err := by
  intro pre
  induction pre with
  | nil => intro _ rest err h; simpa using h
  | cons e es ih =>
      intro hpre rest err h
      have heq : extractEntry e = Except.ok (extractOk e) :=
        extractEntry_ok_of_entryOk e (hpre e (List.mem_cons_self e es))
      have htail := ih (fun x hx => hpre x (List.mem_cons_of_mem e hx)) rest err h
      simp [List.cons_append, fetch_data, heq, htail]

/-! ## Lemmas about the store -/

theorem foldl_add (books : List BookData) :
    ∀ s : Session, books.foldl Session.add s = ⟨s.pending ++ books, s.closed⟩ := by
  induction books with
  | nil => intro s; cases s; simp
  | cons b bs ih =>
      intro s
      rw [List.foldl_cons, ih]
      simp [Session.add]

theorem foldl_add_nil (books : List BookData) :
    books.foldl Session.add ⟨[], false⟩ = ⟨books, false⟩ := by
  rw [foldl_add]
  rfl

theorem insertAll_nil (t : BooksTable) : insertAll t [] = t := by
  cases t
  simp [insertAll, rowsFrom]

theorem rowsFrom_map_rowData :
    ∀ (books : List BookData) (n : Nat), (rowsFrom n books).map rowData = books := by
  intro books
  induction books with
  | nil => intro n; rfl
  | cons b bs ih =>
      intro n
      show rowData (toRow n b) :: (rowsFrom (n + 1) bs).map rowData = b :: bs
      rw [ih]
      rfl

/-- The one execution shape of `save_books`: the fault oracle decides between
the commit arm and the except arm, and nothing else can happen. -/
theorem save_books_spec (t : BooksTable) (books : List BookData) (f : FaultSpec) :
    save_books t books f =
      if f.triggers books then ⟨t, ⟨[], true⟩, [errorMessage ⟨f.message⟩], none⟩
      else ⟨insertAll t books, ⟨[], true⟩, [successMessage books.length], none⟩ := by
  cases h : f.triggers books with
  | false => simp [save_books, foldl_add_nil, Session.commit, h, Session.close]
  | true => simp [save_books, foldl_add_nil, Session.commit, h, Session.rollback, Session.close]

/-! ## The claims -/

/-- Claim C1, counterexample: the claim says the correctly decoded prefix
`"£"` is tolerated and that price text `"£51.77"` extracts as `51.77`.  On
the code, `replace("Â£", "")` leaves `"£51.77"` unchanged and `float` fails
on it, so the entry raises `ValueError` instead of extracting a price. -/
theorem C1_counterexample :
    extractPrice "£51.77" = none ∧
    extractEntry poundEntry = Except.error (ExtractionError.valueError "£51.77") :=
  ⟨rfl, rfl⟩

/-- Claim C1 (amended): the extracted price equals the numeric value of the
price text with the leading mis-decoded currency sequence `"Â£"` removed and
the remainder parsed as a floating-point number; only `"Â£"` is tolerated as
the prefix — text carrying the bare correctly decoded `"£"` fails
extraction. -/
theorem C1_price_extraction (w : String) (q : ℚ)
    (hw : 'Â' ∉ w.data) (hq : parseFloat w = some q) :
    extractPrice ("Â£" ++ w) = some q ∧ extractPrice "£51.77" = none := by
  constructor
  · show parseFloat (pyReplace ("Â£" ++ w) "Â£" "") = some q
    rw [pyReplace_misdecoded w hw]
    exact hq
  · rfl

/-- Witness for C1: price text `"Â£51.77"` extracts as `51.77`. -/
theorem C1_witness :
    extractPrice ("Â£" ++ "51.77") = some (mkRat 5177 100) ∧ extractPrice "£51.77" = none :=
  C1_price_extraction "51.77" (mkRat 5177 100) (by decide) (by decide)

/-- Claim C2, counterexample: the claim says an insertion or commit fault is
reported to the caller of `save_books`.  On the code the `except` arm only
prints the fault and returns normally, so the caller observes a normal
return and no exception. -/
theorem C2_counterexample :
    (save_books emptyTable [sampleBook] (FaultSpec.commitFault "disk error")).raised = none ∧
    (save_books emptyTable [sampleBook] (FaultSpec.commitFault "disk error")).printed
      = ["Error saving to DB: disk error"] :=
  ⟨rfl, rfl⟩

/-- Claim C2 (amended): on any insertion or commit fault during a save, the
unit of work is rolled back in full (the visible table is unchanged) and the
store handle remains usable for subsequent save calls, but the fault is only
printed, not reported to the caller: the call returns normally. -/
theorem C2_fault_rollback_swallowed (t : BooksTable) (books : List BookData) (f : FaultSpec)
    (hf : f.triggers books = true) :
    (save_books t books f).table = t ∧
    (save_books t books f).raised = none ∧
    (save_books t books f).printed = [errorMessage ⟨f.message⟩] ∧
    ∀ more : List BookData,
      (save_books (save_books t books f).table more FaultSpec.noFault).table = insertAll t more := by
  have hspec := save_books_spec t books f
  simp only [hf, if_true] at hspec
  rw [hspec]
  refine ⟨rfl, rfl, rfl, fun more => ?_⟩
  have h2 := save_books_spec t more FaultSpec.noFault
  simp only [FaultSpec.triggers, Bool.false_eq_true, if_false] at h2
  rw [h2]

/-- Witness for C2: a commit fault on a one-record batch leaves the table
unchanged, returns normally, prints the error, and a subsequent save on the
same handle commits. -/
theorem C2_witness :
    (save_books emptyTable [sampleBook] (FaultSpec.commitFault "disk full")).table = emptyTable ∧
    (save_books emptyTable [sampleBook] (FaultSpec.commitFault "disk full")).raised = none ∧
    (save_books emptyTable [sampleBook] (FaultSpec.commitFault "disk full")).printed
      = [errorMessage ⟨"disk full"⟩] ∧
    (save_books (save_books emptyTable [sampleBook] (FaultSpec.commitFault "disk full")).table
        [sampleBook] FaultSpec.noFault).table = insertAll emptyTable [sampleBook] := by
  obtain ⟨h1, h2, h3, h4⟩ := C2_fault_rollback_swallowed emptyTable [sampleBook]
    (FaultSpec.commitFault "disk full") (by decide)
  exact ⟨h1, h2, h3, h4 [sampleBook]⟩

/-- Claim C3: for every well-formed rating class attribute (the fixed token
`"star-rating"`, one space, then a rating word without spaces), the extracted
rating is exactly the second space-separated token of the class attribute,
verbatim. -/
theorem C3_rating_second_token (w : String) (hw : ' ' ∉ w.data) :
    extractRating ("star-rating " ++ w) = w ∧
    secondToken ("star-rating " ++ w) = some w := by
  have hns : ∀ c ∈ w.data, (c == ' ') = false := by
    intro c hc
    cases hb : c == ' ' with
    | false => rfl
    | true =>
        have hce : c = ' ' := by simpa using hb
        exact absurd (hce ▸ hc) hw
  constructor
  · exact pyReplace_star_rating w hw
  · show ((splitSpAux [] ("star-rating " ++ w).data).map (fun l => (⟨l⟩ : String)))[1]? = some w
    have h1 : splitSpAux [] ("star-rating " ++ w).data
        = "star-rating".data :: splitSpAux [] w.data := rfl
    rw [h1, splitSpAux_no_space w.data [] hns]
    rfl

/-- Witness for C3: class `"star-rating Three"` extracts as `"Three"`, the
second space-separated token. -/
theorem C3_witness :
    extractRating ("star-rating " ++ "Three") = "Three" ∧
    secondToken ("star-rating " ++ "Three") = some "Three" :=
  C3_rating_second_token "Three" (by decide)

/-- Claim C4: atomicity of a save.  If the storage faults while inserting
the k-th record of the batch (k < N), zero rows from the batch are visible
afterwards; and on the no-fault path the whole batch becomes durable rows. -/
theorem C4_atomicity (t : BooksTable) (books : List BookData) (k : Nat) (msg : String)
    (hk : k < books.length) :
    (save_books t books (FaultSpec.insertFault k msg)).table.rows = t.rows ∧
    (save_books t books FaultSpec.noFault).table.rows = t.rows ++ rowsFrom t.nextId books := by
  constructor
  · have hspec := save_books_spec t books (FaultSpec.insertFault k msg)
    have htrig : (FaultSpec.insertFault k msg).triggers books = true := by
      simp [FaultSpec.triggers, hk]
    simp only [htrig, if_true] at hspec
    rw [hspec]
  · have hspec := save_books_spec t books FaultSpec.noFault
    simp only [FaultSpec.triggers, Bool.false_eq_true, if_false] at hspec
    rw [hspec]
    rfl

/-- Witness for C4: with a one-record batch, an insert fault at record 0
leaves zero rows visible, and the no-fault path commits the record. -/
theorem C4_witness :
    0 < [sampleBook].length ∧
    ((save_books emptyTable [sampleBook] (FaultSpec.insertFault 0 "constraint failed")).table.rows
        = emptyTable.rows ∧
      (save_books emptyTable [sampleBook] FaultSpec.noFault).table.rows
        = emptyTable.rows ++ rowsFrom emptyTable.nextId [sampleBook]) :=
  ⟨by decide, C4_atomicity emptyTable [sampleBook] 0 "constraint failed" (by decide)⟩

/-- Claim C5, counterexample: the claim says a matched entry with an absent
required field fails extraction — naming a missing title attribute as an
example.  On the code, `get_attribute("title")` returns `None` for such an
entry and the record is built with that `None` title: the page extraction
succeeds and returns the record. -/
theorem C5_counterexample :
    fetch_data [titlelessEntry] =
      Except.ok [⟨none, mkRat 5177 100, "In stock", "Three"⟩] :=
  rfl

/-- Claim C5 (amended): for every matched entry with a missing sub-element
(title anchor, price, availability or rating element), a missing rating
class attribute, or a non-numeric price remainder after currency-sequence
removal, extraction raises and aborts the whole page: no partial sequence is
returned and no later entries are processed.  (A missing title attribute on
a present anchor, however, does not fail: the record is produced with an
absent title.) -/
theorem C5_bad_entry_aborts (pre : List Entry) (e : Entry) (post : List Entry)
    (hpre : ∀ x ∈ pre, entryOk x = true) (he : entryOk e = false) :
    ∃ err, fetch_data (pre ++ e :: post) = Except.error err := by
  obtain ⟨err, herr⟩ := extractEntry_error_of_not_entryOk e he
  exact ⟨err, fetch_data_error_append pre hpre (e :: post) err
    (fetch_data_error_head e post err herr)⟩

/-- Witness for C5: a page whose middle entry has a non-numeric price
remainder aborts as a whole, although its first and last entries are
well-formed. -/
theorem C5_witness :
    ∃ err, fetch_data ([sampleEntry] ++ poundEntry :: [sampleEntry]) = Except.error err :=
  C5_bad_entry_aborts [sampleEntry] poundEntry [sampleEntry] (by decide) (by decide)

/-- Claim C6: on a page whose entries are all well-formed, `fetch_data`
returns one record per entry in document order (so the returned length
equals the number of entries found), and zero entries yield the empty
sequence rather than an error. -/
theorem C6_page_shape :
    fetch_data [] = Except.ok [] ∧
    ∀ (entries : List Entry), (∀ e ∈ entries, entryOk e = true) →
      fetch_data entries = Except.ok (entries.map extractOk) ∧
      (entries.map extractOk).length = entries.length := by
  refine ⟨rfl, fun entries h => ⟨fetch_data_all_ok entries h, by simp⟩⟩

/-- Witness for C6: a one-entry page returns exactly its one record. -/
theorem C6_witness :
    fetch_data [sampleEntry] = Except.ok ([sampleEntry].map extractOk) ∧
    ([sampleEntry].map extractOk).length = [sampleEntry].length :=
  C6_page_shape.2 [sampleEntry] (by decide)

/-- Claim C7: round-trip.  Saving a sequence of N records into a fresh
(empty) table and reading the table back yields exactly N rows whose title,
price, availability and rating equal the input records' fields
field-for-field (here even in the same order). -/
theorem C7_roundtrip (t : BooksTable) (books : List BookData) (h : t.rows = []) :
    ((save_books t books FaultSpec.noFault).table.rows).map rowData = books ∧
    (save_books t books FaultSpec.noFault).table.rows.length = books.length := by
  have hspec := save_books_spec t books FaultSpec.noFault
  simp only [FaultSpec.triggers, Bool.false_eq_true, if_false] at hspec
  rw [hspec]
  constructor
  · show (t.rows ++ rowsFrom t.nextId books).map rowData = books
    rw [h, List.nil_append, rowsFrom_map_rowData]
  · show (t.rows ++ rowsFrom t.nextId books).length = books.length
    rw [h, List.nil_append]
    calc (rowsFrom t.nextId books).length
        = ((rowsFrom t.nextId books).map rowData).length := by simp
      _ = books.length := by rw [rowsFrom_map_rowData]

/-- Witness for C7: saving the spec's example record into a fresh table and
reading back yields exactly that record's fields. -/
theorem C7_witness :
    ((save_books emptyTable [sampleBook] FaultSpec.noFault).table.rows).map rowData
      = [sampleBook] ∧
    (save_books emptyTable [sampleBook] FaultSpec.noFault).table.rows.length
      = [sampleBook].length :=
  C7_roundtrip emptyTable [sampleBook] rfl

/-- Claim C8: initialization is idempotent.  `DatabaseManager.__init__`
creates the `books` table only if absent: running it twice equals running it
once, an existing table keeps its schema and rows, and on an absent table it
creates the declared schema with no rows. -/
theorem C8_init_idempotent :
    (∀ db : Option BooksTable,
      DatabaseManager.init (DatabaseManager.init db) = DatabaseManager.init db) ∧
    (∀ t : BooksTable, DatabaseManager.init (some t) = some t) ∧
    DatabaseManager.init none = some ⟨booksSchema, [], 1⟩ := by
  refine ⟨fun db => ?_, fun t => rfl, rfl⟩
  cases db <;> rfl

/-- Claim C9: saving an empty sequence is a no-op success: the table is
unchanged, the success message for zero books is printed, no exception
reaches the caller, and the session is closed. -/
theorem C9_save_empty (t : BooksTable) :
    save_books t [] FaultSpec.noFault = ⟨t, ⟨[], true⟩, [successMessage 0], none⟩ := by
  have hspec := save_books_spec t [] FaultSpec.noFault
  simp only [FaultSpec.triggers, Bool.false_eq_true, if_false, insertAll_nil,
    List.length_nil] at hspec
  exact hspec

/-- Claim C10 (implicit): `save_books` is total with respect to storage
faults — whether or not the oracle makes the commit fault, the call returns
normally (it never propagates an exception to its caller) and the session it
opened is closed on every exit path. -/
theorem C10_total : ∀ (t : BooksTable) (books : List BookData) (f : FaultSpec),
    (save_books t books f).raised = none ∧ (save_books t books f).session.closed = true := by
  intro t books f
  have hspec := save_books_spec t books f
  cases h : f.triggers books with
  | false =>
      simp only [h, Bool.false_eq_true, if_false] at hspec
      rw [hspec]
      exact ⟨rfl, rfl⟩
  | true =>
      simp only [h, if_true] at hspec
      rw [hspec]
      exact ⟨rfl, rfl⟩

end BookScraperOOP
